import Mathlib

/-!
Verification of the due-date feasibility simulator of the Scheduling Agent
repository.  The data model and both duplicated implementations of the
simulation (`simulate_request_core` in `main.py` and `simulate_request` in
`app.py`) are embedded as executable Lean definitions; dates are day
numbers (`Nat`), quantities are `Int` (Python integers), and the fallible
due-date parse is modelled with `Option`.
-/

/-- A row of the `schedule` table: a scheduled production run. -/
structure Run where
  line_id : Nat
  production_date : Nat
  product_id : String
  planned_qty_cases : Int
  is_firm : Bool
  deriving DecidableEq

/-- A row of the `lines` table. -/
structure LineRec where
  line_id : Nat
  line_name : String
  daily_capacity_cases : Int
  deriving DecidableEq

/-- A row of the `line_capability` table. -/
structure CapRow where
  line_id : Nat
  product_id : String
  rate_cases_per_hour : Int
  deriving DecidableEq

/-- A row of the bill-of-materials query (`bill_of_materials` joined with `materials`). -/
structure BomRow where
  product_id : String
  material_id : Nat
  qty_per_case : Int
  material_name : String
  supplier_lead_time_days : Int
  deriving DecidableEq

/-- A row of the `inventory_materials` table; `on_hand_qty` is nullable. -/
structure InvRow where
  material_id : Nat
  on_hand_qty : Option Int
  deriving DecidableEq

/-- A plan row of the simulation output (`existing_orders_used` / `plan_rows`). -/
structure PlanRow where
  line_id : Nat
  production_date : Nat
  allocated_cases : Int
  source : String
  deriving DecidableEq

/-- The immutable snapshot handed to the simulation (`load_master_data_for_sim`). -/
structure Snapshot where
  schedule : List Run
  lines : List LineRec
  capability : List CapRow
  bom : List BomRow
  inventory : List InvRow
  deriving DecidableEq

/-- Insert into a strictly sorted list of dates, skipping duplicates; together
with `sortedUnique` this models Python's `sorted(column.unique())`. -/
def sortedInsert (x : Nat) : List Nat → List Nat
  | [] => [x]
  | y :: ys => if x < y then x :: y :: ys else if x = y then y :: ys else y :: sortedInsert x ys

/-- The ascending list of the distinct values of a column (`sorted(col.unique())`). -/
def sortedUnique (l : List Nat) : List Nat := l.foldr sortedInsert []

/-- First-occurrence deduplication, with an accumulator of values already seen. -/
def dedupFirstAux (seen : List Nat) : List Nat → List Nat
  | [] => []
  | x :: xs => if x ∈ seen then dedupFirstAux seen xs else x :: dedupFirstAux (x :: seen) xs

/-- First-occurrence deduplication of a column, as pandas `.unique()` performs it. -/
def dedupFirst (l : List Nat) : List Nat := dedupFirstAux [] l

/-- Comparison used by `sort_values(["prod_date_only", "line_id"])`. -/
def run_le (a b : Run) : Bool :=
  decide (a.production_date < b.production_date) ||
    (a.production_date == b.production_date && decide (a.line_id ≤ b.line_id))

/-- Stable insertion for `sort_runs`. -/
def insert_run (x : Run) : List Run → List Run
  | [] => [x]
  | y :: ys => if run_le x y then x :: y :: ys else y :: insert_run x ys

/-- Stable sort of schedule rows by (date, line id), as `sort_values` does. -/
def sort_runs (l : List Run) : List Run := l.foldr insert_run []

/-- The (date, line) key of a plan row. -/
def pairOf (r : PlanRow) : Nat × Nat := (r.production_date, r.line_id)

/-- Strict lexicographic order on (date, line id) pairs. -/
def pairLt (p q : Nat × Nat) : Prop := p.1 < q.1 ∨ (p.1 = q.1 ∧ p.2 < q.2)

namespace Main

/-- The output record of `simulate_request_core` (the fields the claims are about;
presentation-only fields such as `explanation` and the echoed request are omitted). -/
structure Result where
  status : String
  covered_qty_on_requested_date : Int
  remaining_qty : Int
  existing_orders_used : List PlanRow
  capacity_notes : List String
  material_notes : List String
  deriving DecidableEq

/-- `sched_window`: schedule rows on or before the due date. -/
def sched_window (data : Snapshot) (due : Nat) : List Run :=
  data.schedule.filter (fun r => decide (r.production_date ≤ due))

/-- `sku_sched`: the window restricted to the requested product. -/
def sku_sched (data : Snapshot) (due : Nat) (pid : String) : List Run :=
  (sched_window data due).filter (fun r => r.product_id == pid)

/-- `already_planned_cases`: cases of the product already planned by the due date. -/
def already_planned_cases (data : Snapshot) (due : Nat) (pid : String) : Int :=
  ((sku_sched data due pid).map (fun r => r.planned_qty_cases)).sum

/-- `covering_rows`: the already-planned rows, sorted by (date, line id). -/
def covering_rows (data : Snapshot) (due : Nat) (pid : String) : List PlanRow :=
  (sort_runs (sku_sched data due pid)).map (fun r =>
    { line_id := r.line_id, production_date := r.production_date,
      allocated_cases := r.planned_qty_cases, source := "already_planned" })

/-- `capable_lines`: line ids with a capability row for the product,
deduplicated in first-occurrence order (pandas `.unique().tolist()`). -/
def capable_lines (data : Snapshot) (pid : String) : List Nat :=
  dedupFirst ((data.capability.filter (fun c => c.product_id == pid)).map (fun c => c.line_id))

/-- The ascending distinct dates of the window (`sorted(sched_window[...].unique())`). -/
def window_dates (data : Snapshot) (due : Nat) : List Nat :=
  sortedUnique ((sched_window data due).map (fun r => r.production_date))

/-- The (date, line) pairs visited by the allocation loops, in loop order. -/
def alloc_cells (data : Snapshot) (due : Nat) (pid : String) : List (Nat × Nat) :=
  (window_dates data due).flatMap (fun d => (capable_lines data pid).map (fun l => (d, l)))

/-- `total_planned_now`: cases of all products already scheduled on a line and date. -/
def planned_on (window : List Run) (line : Nat) (d : Nat) : Int :=
  ((window.filter (fun r => r.line_id == line && r.production_date == d)).map
    (fun r => r.planned_qty_cases)).sum

/-- One iteration of the allocation loop body at a (date, line) cell, acting on
the state (remaining_capacity_allocation, extra_plan_rows); the `break` on a
non-positive remainder and the `continue` cases leave the state unchanged. -/
def alloc_step (lns : List LineRec) (window : List Run) (st : Int × List PlanRow)
    (c : Nat × Nat) : Int × List PlanRow :=
  if st.1 ≤ 0 then st
  else
    match lns.find? (fun l => l.line_id == c.2) with
    | none => st
    | some info =>
      let headroom := max (info.daily_capacity_cases - planned_on window c.2 c.1) 0
      if headroom ≤ 0 then st
      else
        let allocate_now := min headroom st.1
        (st.1 - allocate_now,
          st.2 ++ [{ line_id := c.2, production_date := c.1,
                     allocated_cases := allocate_now, source := "new_plan" }])

/-- The final state of the allocation loops started from `need`. -/
def alloc_state (data : Snapshot) (due : Nat) (pid : String) (need : Int) :
    Int × List PlanRow :=
  (alloc_cells data due pid).foldl (alloc_step data.lines (sched_window data due)) (need, [])

/-- `extra_plan_rows`: the new-plan rows appended by the allocation loops. -/
def extra_plan_rows (data : Snapshot) (due : Nat) (pid : String) (need : Int) : List PlanRow :=
  (alloc_state data due pid need).2

/-- `new_capacity_cases = need_after_plan - remaining_capacity_allocation`. -/
def new_capacity_cases (data : Snapshot) (due : Nat) (pid : String) (need : Int) : Int :=
  need - (alloc_state data due pid need).1

/-- `capacity_shortfall = max(requested - (already_planned + new_capacity), 0)`. -/
def capacity_shortfall (data : Snapshot) (due : Nat) (pid : String) (q : Int) : Int :=
  max (q - (already_planned_cases data due pid +
    new_capacity_cases data due pid (q - already_planned_cases data due pid))) 0

/-- The left-join of one BOM row with the inventory on `material_id`
(`pd.merge(..., how="left")`): no matching row yields a single null. -/
def join_on_hand (inv : List InvRow) (b : BomRow) : List (Option Int) :=
  match inv.filter (fun i => i.material_id == b.material_id) with
  | [] => [none]
  | ms => ms.map (fun i => i.on_hand_qty)

/-- The shortage note emitted for one short material. -/
def shortage_note (b : BomRow) (shortage : Int) : String :=
  b.material_name ++ " short by " ++ toString shortage ++
    " (lead " ++ toString b.supplier_lead_time_days ++ "d)"

/-- `mat_blockers`: the material check for the newly allocated part only. -/
def mat_blockers (data : Snapshot) (pid : String) (nc : Int) : List String :=
  if 0 < nc then
    if data.bom.filter (fun b => b.product_id == pid) = [] then
      ["No BOM defined for this SKU"]
    else
      (data.bom.filter (fun b => b.product_id == pid)).flatMap (fun b =>
        (join_on_hand data.inventory b).filterMap (fun oh =>
          if oh.getD 0 < b.qty_per_case * nc then
            some (shortage_note b (b.qty_per_case * nc - oh.getD 0))
          else none))
  else []

/-- `feasible_new_cases`: the new capacity, zeroed when any material blocks. -/
def feasible_new_cases (data : Snapshot) (due : Nat) (pid : String) (q : Int) : Int :=
  if mat_blockers data pid
      (new_capacity_cases data due pid (q - already_planned_cases data due pid)) ≠ [] then 0
  else new_capacity_cases data due pid (q - already_planned_cases data due pid)

/-- `total_feasible = already_planned_cases + feasible_new_cases`. -/
def total_feasible (data : Snapshot) (due : Nat) (pid : String) (q : Int) : Int :=
  already_planned_cases data due pid + feasible_new_cases data due pid q

/-- The capacity shortfall note. -/
def short_note (shortfall : Int) (due : Nat) : String :=
  "Short " ++ toString shortfall ++ " cases before " ++ toString due

/-- `simulate_request_core` from `main.py`, after the due-date parse. -/
def simulate_request_core (due : Nat) (pid : String) (q : Int) (data : Snapshot) : Result :=
  if already_planned_cases data due pid ≥ q then
    { status := "full", covered_qty_on_requested_date := q, remaining_qty := 0,
      existing_orders_used := covering_rows data due pid,
      capacity_notes := [], material_notes := [] }
  else if capable_lines data pid = [] then
    { status := "no",
      covered_qty_on_requested_date := already_planned_cases data due pid,
      remaining_qty := q - already_planned_cases data due pid,
      existing_orders_used := covering_rows data due pid,
      capacity_notes := ["No capable line for this SKU"], material_notes := [] }
  else if capacity_shortfall data due pid q = 0 ∧
      mat_blockers data pid
        (new_capacity_cases data due pid (q - already_planned_cases data due pid)) = [] then
    { status := "full", covered_qty_on_requested_date := q, remaining_qty := 0,
      existing_orders_used := covering_rows data due pid ++
        extra_plan_rows data due pid (q - already_planned_cases data due pid),
      capacity_notes := [], material_notes := [] }
  else
    { status := if 0 < total_feasible data due pid q then "partial" else "no",
      covered_qty_on_requested_date := total_feasible data due pid q,
      remaining_qty := max (q - total_feasible data due pid q) 0,
      existing_orders_used := covering_rows data due pid ++
        (if 0 < feasible_new_cases data due pid q ∧
            mat_blockers data pid
              (new_capacity_cases data due pid (q - already_planned_cases data due pid)) = []
          then extra_plan_rows data due pid (q - already_planned_cases data due pid) else []),
      capacity_notes :=
        if 0 < capacity_shortfall data due pid q then
          [short_note (capacity_shortfall data due pid q) due]
        else [],
      material_notes := mat_blockers data pid
        (new_capacity_cases data due pid (q - already_planned_cases data due pid)) }

/-- `simulate_request_core` including its first statement: the call to pandas
`to_datetime`, which raises on a malformed due-date string.  The fallible parse
is modelled as an `Option Nat`; a raising parse (`none`) propagates to the caller. -/
def simulate_request_core_of_parsed (due : Option Nat) (pid : String) (q : Int)
    (data : Snapshot) : Option Result :=
  due.map (fun d => simulate_request_core d pid q data)

end Main

namespace App

/-- The output record of `simulate_request` in `app.py` (the fields the
claims are about; the `message` string is presentation and omitted). -/
structure AResult where
  can_fulfill : Bool
  allocated_total : Int
  remaining : Int
  plan_rows : List PlanRow
  material_blockers : List String
  capacity_blockers : List String
  deriving DecidableEq

/-- `sched_window` in `app.py`. -/
def sched_window (data : Snapshot) (due : Nat) : List Run :=
  data.schedule.filter (fun r => decide (r.production_date ≤ due))

/-- `sku_sched` in `app.py`. -/
def sku_sched (data : Snapshot) (due : Nat) (pid : String) : List Run :=
  (sched_window data due).filter (fun r => r.product_id == pid)

/-- `already_planned_cases` in `app.py`. -/
def already_planned_cases (data : Snapshot) (due : Nat) (pid : String) : Int :=
  ((sku_sched data due pid).map (fun r => r.planned_qty_cases)).sum

/-- `covering_rows` in `app.py`. -/
def covering_rows (data : Snapshot) (due : Nat) (pid : String) : List PlanRow :=
  (sort_runs (sku_sched data due pid)).map (fun r =>
    { line_id := r.line_id, production_date := r.production_date,
      allocated_cases := r.planned_qty_cases, source := "already_planned" })

/-- `capable_lines` in `app.py`. -/
def capable_lines (data : Snapshot) (pid : String) : List Nat :=
  dedupFirst ((data.capability.filter (fun c => c.product_id == pid)).map (fun c => c.line_id))

/-- The ascending distinct window dates in `app.py`. -/
def window_dates (data : Snapshot) (due : Nat) : List Nat :=
  sortedUnique ((sched_window data due).map (fun r => r.production_date))

/-- The (date, line) pairs visited by the `app.py` allocation loops. -/
def alloc_cells (data : Snapshot) (due : Nat) (pid : String) : List (Nat × Nat) :=
  (window_dates data due).flatMap (fun d => (capable_lines data pid).map (fun l => (d, l)))

/-- `total_planned_now` in `app.py`. -/
def planned_on (window : List Run) (line : Nat) (d : Nat) : Int :=
  ((window.filter (fun r => r.line_id == line && r.production_date == d)).map
    (fun r => r.planned_qty_cases)).sum

/-- One iteration of the `app.py` allocation loop body. -/
def alloc_step (lns : List LineRec) (window : List Run) (st : Int × List PlanRow)
    (c : Nat × Nat) : Int × List PlanRow :=
  if st.1 ≤ 0 then st
  else
    match lns.find? (fun l => l.line_id == c.2) with
    | none => st
    | some info =>
      let headroom := max (info.daily_capacity_cases - planned_on window c.2 c.1) 0
      if headroom ≤ 0 then st
      else
        let allocate_now := min headroom st.1
        (st.1 - allocate_now,
          st.2 ++ [{ line_id := c.2, production_date := c.1,
                     allocated_cases := allocate_now, source := "new_plan" }])

/-- The final allocation state in `app.py`. -/
def alloc_state (data : Snapshot) (due : Nat) (pid : String) (need : Int) :
    Int × List PlanRow :=
  (alloc_cells data due pid).foldl (alloc_step data.lines (sched_window data due)) (need, [])

/-- `extra_plan_rows` in `app.py`. -/
def extra_plan_rows (data : Snapshot) (due : Nat) (pid : String) (need : Int) : List PlanRow :=
  (alloc_state data due pid need).2

/-- `new_capacity_cases` in `app.py`. -/
def new_capacity_cases (data : Snapshot) (due : Nat) (pid : String) (need : Int) : Int :=
  need - (alloc_state data due pid need).1

/-- `capacity_shortfall` in `app.py`. -/
def capacity_shortfall (data : Snapshot) (due : Nat) (pid : String) (q : Int) : Int :=
  max (q - (already_planned_cases data due pid +
    new_capacity_cases data due pid (q - already_planned_cases data due pid))) 0

/-- The left-join with inventory in `app.py`. -/
def join_on_hand (inv : List InvRow) (b : BomRow) : List (Option Int) :=
  match inv.filter (fun i => i.material_id == b.material_id) with
  | [] => [none]
  | ms => ms.map (fun i => i.on_hand_qty)

/-- The shortage note of `app.py` (same wording as `main.py`). -/
def shortage_note (b : BomRow) (shortage : Int) : String :=
  b.material_name ++ " short by " ++ toString shortage ++
    " (lead " ++ toString b.supplier_lead_time_days ++ "d)"

/-- `mat_blockers` in `app.py`; its no-BOM message differs from `main.py`. -/
def mat_blockers (data : Snapshot) (pid : String) (nc : Int) : List String :=
  if 0 < nc then
    if data.bom.filter (fun b => b.product_id == pid) = [] then
      ["No BOM for this SKU."]
    else
      (data.bom.filter (fun b => b.product_id == pid)).flatMap (fun b =>
        (join_on_hand data.inventory b).filterMap (fun oh =>
          if oh.getD 0 < b.qty_per_case * nc then
            some (shortage_note b (b.qty_per_case * nc - oh.getD 0))
          else none))
  else []

/-- `feasible_new_cases` in `app.py`. -/
def feasible_new_cases (data : Snapshot) (due : Nat) (pid : String) (q : Int) : Int :=
  if mat_blockers data pid
      (new_capacity_cases data due pid (q - already_planned_cases data due pid)) ≠ [] then 0
  else new_capacity_cases data due pid (q - already_planned_cases data due pid)

/-- `total_feasible` in `app.py`. -/
def total_feasible (data : Snapshot) (due : Nat) (pid : String) (q : Int) : Int :=
  already_planned_cases data due pid + feasible_new_cases data due pid q

/-- The capacity shortfall note of `app.py` (same wording as `main.py`). -/
def short_note (shortfall : Int) (due : Nat) : String :=
  "Short " ++ toString shortfall ++ " cases before " ++ toString due

/-- `simulate_request` from `app.py` (the Streamlit copy), after the due-date
parse; `q` is the `extra_cases` argument. -/
def simulate_request (due : Nat) (pid : String) (q : Int) (data : Snapshot) : AResult :=
  if already_planned_cases data due pid ≥ q then
    { can_fulfill := true, allocated_total := q, remaining := 0,
      plan_rows := covering_rows data due pid,
      material_blockers := [], capacity_blockers := [] }
  else if capable_lines data pid = [] then
    { can_fulfill := false,
      allocated_total := already_planned_cases data due pid,
      remaining := q - already_planned_cases data due pid,
      plan_rows := covering_rows data due pid,
      material_blockers := ["No line can run this product"],
      capacity_blockers := ["No capable line found"] }
  else if capacity_shortfall data due pid q = 0 ∧
      mat_blockers data pid
        (new_capacity_cases data due pid (q - already_planned_cases data due pid)) = [] then
    { can_fulfill := true, allocated_total := q, remaining := 0,
      plan_rows := covering_rows data due pid ++
        extra_plan_rows data due pid (q - already_planned_cases data due pid),
      material_blockers := [], capacity_blockers := [] }
  else
    { can_fulfill := false,
      allocated_total := total_feasible data due pid q,
      remaining := max (q - total_feasible data due pid q) 0,
      plan_rows := covering_rows data due pid ++
        (if 0 < feasible_new_cases data due pid q ∧
            mat_blockers data pid
              (new_capacity_cases data due pid (q - already_planned_cases data due pid)) = []
          then extra_plan_rows data due pid (q - already_planned_cases data due pid) else []),
      material_blockers := mat_blockers data pid
        (new_capacity_cases data due pid (q - already_planned_cases data due pid)),
      capacity_blockers :=
        if 0 < capacity_shortfall data due pid q then
          [short_note (capacity_shortfall data due pid q) due]
        else [] }

end App

/-- The headroom the allocation loop computes at a (date, line) cell, and zero
for a line id with no `lines` row (such a cell is skipped). -/
def cell_cap (lns : List LineRec) (window : List Run) (c : Nat × Nat) : Int :=
  match lns.find? (fun l => l.line_id == c.2) with
  | none => 0
  | some info => max (info.daily_capacity_cases - Main.planned_on window c.2 c.1) 0

/-- Total headroom over a list of cells. -/
def cap_sum (lns : List LineRec) (window : List Run) (cells : List (Nat × Nat)) : Int :=
  (cells.map (cell_cap lns window)).sum

/-- The first inventory row joined to a material id: `none` both for a missing
row and for a null `on_hand_qty`. -/
def inv_row_of (inv : List InvRow) (m : Nat) : Option Int :=
  match inv.find? (fun i => i.material_id == m) with
  | none => none
  | some i => i.on_hand_qty

/-- The on-hand quantity of a material, with a missing or null row read as zero. -/
def on_hand_of (inv : List InvRow) (m : Nat) : Int := (inv_row_of inv m).getD 0

/-- A snapshot with the `is_firm` flag of every scheduled run rewritten; used to
state that the engine treats firm and flexible runs identically. -/
def Snapshot.with_firm (data : Snapshot) (f : Run → Bool) : Snapshot :=
  { data with schedule := data.schedule.map (fun r => { r with is_firm := f r }) }

/-- Whether a list of (date, line id) pairs is strictly ascending lexicographically. -/
def pairs_asc : List (Nat × Nat) → Bool
  | [] => true
  | [_] => true
  | p :: q :: rest =>
    (decide (p.1 < q.1) || (p.1 == q.1 && decide (p.2 < q.2))) && pairs_asc (q :: rest)

/-- Snapshot refuting the sorted-capable-lines claim: the capability rows list
line 2 before line 1, and a schedule row puts day 5 into the window. -/
def snapC3 : Snapshot :=
  { schedule := [⟨1, 5, "X", 0, true⟩],
    lines := [⟨1, "L1", 10⟩, ⟨2, "L2", 10⟩],
    capability := [⟨2, "P", 100⟩, ⟨1, "P", 100⟩],
    bom := [], inventory := [] }

/-- Like `snapC3` but with the capability rows in ascending line order. -/
def snapC3w : Snapshot :=
  { schedule := [⟨1, 5, "X", 0, true⟩],
    lines := [⟨1, "L1", 10⟩, ⟨2, "L2", 10⟩],
    capability := [⟨1, "P", 100⟩, ⟨2, "P", 100⟩],
    bom := [], inventory := [] }

/-- Snapshot reaching the final classifier branch through a material shortage:
capacity suffices for 10 cases but only 3 units of the material are on hand. -/
def snapC2w : Snapshot :=
  { schedule := [⟨1, 3, "X", 0, true⟩],
    lines := [⟨1, "L1", 100⟩],
    capability := [⟨1, "P", 50⟩],
    bom := [⟨"P", 7, 1, "M", 2⟩],
    inventory := [⟨7, some 3⟩] }

/-- The empty snapshot. -/
def snapC4 : Snapshot := { schedule := [], lines := [], capability := [], bom := [], inventory := [] }

/-- Snapshot with one nonnegative scheduled run. -/
def snapC4w : Snapshot :=
  { schedule := [⟨1, 2, "P", 4, false⟩], lines := [], capability := [], bom := [], inventory := [] }

/-- Snapshot with a two-line BOM and inventory holding one null row. -/
def snapC6w : Snapshot :=
  { schedule := [], lines := [], capability := [],
    bom := [⟨"P", 7, 2, "Resin", 5⟩, ⟨"P", 8, 1, "Film", 3⟩],
    inventory := [⟨7, some 5⟩, ⟨8, none⟩] }

/-- Snapshot with 2 cases planned and no capability row for the product. -/
def snapC7w : Snapshot :=
  { schedule := [⟨1, 3, "P", 2, true⟩], lines := [], capability := [], bom := [], inventory := [] }

/-- Snapshot with 1 case planned and no capability row for the product. -/
def snapC7cex : Snapshot :=
  { schedule := [⟨2, 4, "P", 1, false⟩], lines := [], capability := [], bom := [], inventory := [] }

/-- A small feasible snapshot with nonnegative BOM coefficients. -/
def snapC8w : Snapshot :=
  { schedule := [⟨1, 1, "P", 1, true⟩],
    lines := [⟨1, "L1", 5⟩],
    capability := [⟨1, "P", 10⟩],
    bom := [⟨"P", 7, 1, "M", 2⟩],
    inventory := [⟨7, some 100⟩] }

/-- Snapshot on which the two implementations disagree on the material-blocker
count: no capable line exists and less than the request is planned. -/
def snapC9cex : Snapshot :=
  { schedule := [⟨1, 2, "P", 1, true⟩], lines := [], capability := [], bom := [], inventory := [] }

theorem mem_sortedInsert (x y : Nat) (l : List Nat) :
    y ∈ sortedInsert x l ↔ y = x ∨ y ∈ l := by
  induction l with
  | nil => simp [sortedInsert]
  | cons z zs ih =>
    by_cases h1 : x < z
    · simp only [sortedInsert, if_pos h1, List.mem_cons]
    · by_cases h2 : x = z
      · subst h2; simp [sortedInsert, h1, List.mem_cons]
      · simp only [sortedInsert, if_neg h1, if_neg h2, List.mem_cons, ih]; tauto

theorem pairwise_sortedInsert (x : Nat) (l : List Nat) (h : l.Pairwise (· < ·)) :
    (sortedInsert x l).Pairwise (· < ·) := by
  induction l with
  | nil => simp [sortedInsert]
  | cons z zs ih =>
    rcases List.pairwise_cons.mp h with ⟨hz, hzs⟩
    by_cases h1 : x < z
    · simp only [sortedInsert, if_pos h1]
      refine List.pairwise_cons.mpr ⟨?_, h⟩
      intro y hy
      rcases List.mem_cons.mp hy with rfl | hy
      · exact h1
      · exact lt_trans h1 (hz y hy)
    · by_cases h2 : x = z
      · subst h2; simpa only [sortedInsert, if_neg h1, if_pos rfl] using h
      · simp only [sortedInsert, if_neg h1, if_neg h2]
        refine List.pairwise_cons.mpr ⟨?_, ih hzs⟩
        intro y hy
        rcases (mem_sortedInsert x y zs).mp hy with rfl | hy
        · omega
        · exact hz y hy

theorem sortedUnique_pairwise (l : List Nat) : (sortedUnique l).Pairwise (· < ·) := by
  induction l with
  | nil => simp [sortedUnique]
  | cons x xs ih => exact pairwise_sortedInsert x _ ih

theorem dedupFirstAux_spec (l : List Nat) : ∀ seen : List Nat,
    (dedupFirstAux seen l).Nodup ∧ ∀ y ∈ dedupFirstAux seen l, y ∉ seen := by
  induction l with
  | nil => intro seen; simp [dedupFirstAux]
  | cons x xs ih =>
    intro seen
    by_cases hx : x ∈ seen
    · simpa only [dedupFirstAux, if_pos hx] using ih seen
    · simp only [dedupFirstAux, if_neg hx]
      obtain ⟨h1, h2⟩ := ih (x :: seen)
      refine ⟨List.nodup_cons.mpr ⟨fun hmem => (h2 x hmem) (List.mem_cons_self x seen), h1⟩, ?_⟩
      intro y hy
      rcases List.mem_cons.mp hy with rfl | hy
      · exact hx
      · exact fun hys => (h2 y hy) (List.mem_cons_of_mem x hys)

theorem dedupFirst_nodup (l : List Nat) : (dedupFirst l).Nodup :=
  (dedupFirstAux_spec l []).1

theorem pairwise_flatMap_pairs {R : Nat × Nat → Nat × Nat → Prop}
    {R1 R2 : Nat → Nat → Prop} (dates lns : List Nat)
    (hd : dates.Pairwise R1) (hl : lns.Pairwise R2)
    (hcross : ∀ d d' l l', R1 d d' → R (d, l) (d', l'))
    (hblock : ∀ d l l', R2 l l' → R (d, l) (d, l')) :
    (dates.flatMap (fun d => lns.map (fun l => (d, l)))).Pairwise R := by
  induction dates with
  | nil => simp
  | cons d ds ih =>
    rcases List.pairwise_cons.mp hd with ⟨hdd, hds⟩
    simp only [List.flatMap_cons]
    refine List.pairwise_append.mpr ⟨?_, ih hds, ?_⟩
    · exact (List.pairwise_map).mpr (hl.imp (fun {a b} hab => hblock d a b hab))
    · intro x hx y hy
      rcases List.mem_map.mp hx with ⟨l1, _, rfl⟩
      rcases List.mem_flatMap.mp hy with ⟨d', hd', hy'⟩
      rcases List.mem_map.mp hy' with ⟨l2, _, rfl⟩
      exact hcross d d' l1 l2 (hdd d' hd')

theorem cell_cap_nonneg (lns : List LineRec) (window : List Run) (c : Nat × Nat) :
    0 ≤ cell_cap lns window c := by
  unfold cell_cap
  cases lns.find? (fun l => l.line_id == c.2) with
  | none => exact le_refl 0
  | some info => exact le_max_right _ 0

theorem cap_sum_nonneg (lns : List LineRec) (window : List Run) (cells : List (Nat × Nat)) :
    0 ≤ cap_sum lns window cells := by
  apply List.sum_nonneg
  intro x hx
  rcases List.mem_map.mp hx with ⟨c, _, rfl⟩
  exact cell_cap_nonneg lns window c

theorem alloc_step_char (lns : List LineRec) (window : List Run) (rem : Int) (c : Nat × Nat) :
    ((rem ≤ 0 ∨ cell_cap lns window c ≤ 0) ∧
      Main.alloc_step lns window (rem, []) c = (rem, [])) ∨
    (0 < rem ∧ 0 < cell_cap lns window c ∧
      Main.alloc_step lns window (rem, []) c =
        (rem - min (cell_cap lns window c) rem,
         [{ line_id := c.2, production_date := c.1,
            allocated_cases := min (cell_cap lns window c) rem, source := "new_plan" }])) := by
  by_cases hrem : rem ≤ 0
  · left
    exact ⟨Or.inl hrem, by simp [Main.alloc_step, hrem]⟩
  · cases hf : lns.find? (fun l => l.line_id == c.2) with
    | none =>
      left
      refine ⟨Or.inr ?_, ?_⟩
      · unfold cell_cap; rw [hf]
      · simp [Main.alloc_step, hrem, hf]
    | some info =>
      have hcap : cell_cap lns window c =
          max (info.daily_capacity_cases - Main.planned_on window c.2 c.1) 0 := by
        unfold cell_cap; rw [hf]
      by_cases hh : max (info.daily_capacity_cases - Main.planned_on window c.2 c.1) 0 ≤ 0
      · left
        refine ⟨Or.inr (by rw [hcap]; exact hh), ?_⟩
        simp only [Main.alloc_step, if_neg hrem, hf]
        rw [if_pos hh]
      · right
        refine ⟨by omega, by rw [hcap]; omega, ?_⟩
        simp only [Main.alloc_step, if_neg hrem, hf]
        rw [if_neg hh, hcap]
        simp

theorem alloc_step_append (lns : List LineRec) (window : List Run)
    (st : Int × List PlanRow) (c : Nat × Nat) :
    Main.alloc_step lns window st c =
      ((Main.alloc_step lns window (st.1, []) c).1,
        st.2 ++ (Main.alloc_step lns window (st.1, []) c).2) := by
  obtain ⟨rem, rows⟩ := st
  by_cases hrem : rem ≤ 0
  · simp [Main.alloc_step, hrem]
  · cases hf : lns.find? (fun l => l.line_id == c.2) with
    | none => simp [Main.alloc_step, hrem, hf]
    | some info =>
      by_cases hh : max (info.daily_capacity_cases - Main.planned_on window c.2 c.1) 0 ≤ 0
      · simp only [Main.alloc_step, if_neg hrem, hf]
        rw [if_pos hh, if_pos hh]
        simp
      · simp only [Main.alloc_step, if_neg hrem, hf]
        rw [if_neg hh, if_neg hh]
        simp

theorem alloc_foldl_split (lns : List LineRec) (window : List Run)
    (cells : List (Nat × Nat)) : ∀ (rem : Int) (rows : List PlanRow),
    cells.foldl (Main.alloc_step lns window) (rem, rows) =
      ((cells.foldl (Main.alloc_step lns window) (rem, [])).1,
        rows ++ (cells.foldl (Main.alloc_step lns window) (rem, [])).2) := by
  induction cells with
  | nil => intro rem rows; simp
  | cons c cs ih =>
    intro rem rows
    simp only [List.foldl_cons]
    rw [alloc_step_append lns window (rem, rows) c]
    rw [ih (Main.alloc_step lns window (rem, []) c).1
          (rows ++ (Main.alloc_step lns window (rem, []) c).2)]
    conv_rhs =>
      rw [ih (Main.alloc_step lns window (rem, []) c).1
            (Main.alloc_step lns window (rem, []) c).2]
    simp [List.append_assoc]

theorem alloc_fst_spec (lns : List LineRec) (window : List Run)
    (cells : List (Nat × Nat)) : ∀ rem : Int, 0 ≤ rem →
    (cells.foldl (Main.alloc_step lns window) (rem, [])).1 =
      max (rem - cap_sum lns window cells) 0 := by
  induction cells with
  | nil => intro rem h; simp [cap_sum]; omega
  | cons c cs ih =>
    intro rem h
    have hccap := cell_cap_nonneg lns window c
    have hcsum := cap_sum_nonneg lns window cs
    have hsum : cap_sum lns window (c :: cs) = cell_cap lns window c + cap_sum lns window cs := by
      simp [cap_sum]
    simp only [List.foldl_cons]
    rcases alloc_step_char lns window rem c with ⟨hid, heq⟩ | ⟨hr, hc, heq⟩
    · rw [heq, ih rem h, hsum]
      omega
    · rw [heq]
      rw [alloc_foldl_split lns window cs]
      rw [ih (rem - min (cell_cap lns window c) rem) (by omega)]
      rw [hsum]
      omega

theorem alloc_rows_spec (lns : List LineRec) (window : List Run)
    (cells : List (Nat × Nat)) : ∀ rem : Int,
    List.Sublist (((cells.foldl (Main.alloc_step lns window) (rem, [])).2).map pairOf) cells ∧
    ∀ r ∈ (cells.foldl (Main.alloc_step lns window) (rem, [])).2,
      0 < r.allocated_cases ∧ r.allocated_cases ≤ cell_cap lns window (pairOf r) ∧
        r.source = "new_plan" := by
  induction cells with
  | nil => intro rem; simp
  | cons c cs ih =>
    intro rem
    simp only [List.foldl_cons]
    rcases alloc_step_char lns window rem c with ⟨_, heq⟩ | ⟨hr, hc, heq⟩
    · rw [heq]
      obtain ⟨ihs, ihm⟩ := ih rem
      exact ⟨ihs.cons c, ihm⟩
    · rw [heq]
      rw [alloc_foldl_split lns window cs]
      obtain ⟨ihs, ihm⟩ := ih (rem - min (cell_cap lns window c) rem)
      have hpair : pairOf ⟨c.2, c.1, min (cell_cap lns window c) rem, "new_plan"⟩ = c := rfl
      constructor
      · simp only [List.map_append, List.map_cons, List.map_nil]
        rw [List.singleton_append, hpair]
        exact ihs.cons₂ c
      · intro r hr'
        rcases List.mem_append.mp hr' with hhd | htl
        · rcases List.mem_singleton.mp hhd with rfl
          refine ⟨?_, ?_, rfl⟩
          · show (0 : Int) < min (cell_cap lns window c) rem
            omega
          · show min (cell_cap lns window c) rem ≤ cell_cap lns window c
            omega
        · exact ihm r htl

theorem alloc_state_fst (data : Snapshot) (due : Nat) (pid : String) (need : Int)
    (h : 0 ≤ need) :
    (Main.alloc_state data due pid need).1 =
      max (need - cap_sum data.lines (Main.sched_window data due)
        (Main.alloc_cells data due pid)) 0 :=
  alloc_fst_spec data.lines (Main.sched_window data due) (Main.alloc_cells data due pid) need h

theorem new_capacity_min (data : Snapshot) (due : Nat) (pid : String) (need : Int)
    (h : 0 ≤ need) :
    Main.new_capacity_cases data due pid need =
      min need (cap_sum data.lines (Main.sched_window data due)
        (Main.alloc_cells data due pid)) := by
  have hnn := cap_sum_nonneg data.lines (Main.sched_window data due) (Main.alloc_cells data due pid)
  unfold Main.new_capacity_cases
  rw [alloc_state_fst data due pid need h]
  omega

theorem new_capacity_bounds (data : Snapshot) (due : Nat) (pid : String) (need : Int)
    (h : 0 ≤ need) :
    0 ≤ Main.new_capacity_cases data due pid need ∧
      Main.new_capacity_cases data due pid need ≤ need := by
  have hnn := cap_sum_nonneg data.lines (Main.sched_window data due) (Main.alloc_cells data due pid)
  rw [new_capacity_min data due pid need h]
  omega

theorem app_sched_window_eq : App.sched_window = Main.sched_window := rfl

theorem app_already_eq : App.already_planned_cases = Main.already_planned_cases := rfl

theorem app_covering_eq : App.covering_rows = Main.covering_rows := rfl

theorem app_capable_eq : App.capable_lines = Main.capable_lines := rfl

theorem app_alloc_state_eq : App.alloc_state = Main.alloc_state := rfl

theorem app_extra_eq : App.extra_plan_rows = Main.extra_plan_rows := rfl

theorem app_nc_eq : App.new_capacity_cases = Main.new_capacity_cases := rfl

theorem app_shortfall_eq : App.capacity_shortfall = Main.capacity_shortfall := rfl

theorem app_short_note_eq : App.short_note = Main.short_note := rfl

theorem app_mat_len_eq (data : Snapshot) (pid : String) (nc : Int) :
    (App.mat_blockers data pid nc).length = (Main.mat_blockers data pid nc).length := by
  unfold App.mat_blockers Main.mat_blockers
  by_cases h1 : 0 < nc
  · rw [if_pos h1, if_pos h1]
    by_cases h2 : data.bom.filter (fun b => b.product_id == pid) = []
    · rw [if_pos h2, if_pos h2]
      rfl
    · rw [if_neg h2, if_neg h2]
      rfl
  · rw [if_neg h1, if_neg h1]

theorem app_mat_empty_iff (data : Snapshot) (pid : String) (nc : Int) :
    App.mat_blockers data pid nc = [] ↔ Main.mat_blockers data pid nc = [] := by
  rw [← List.length_eq_zero, ← List.length_eq_zero, app_mat_len_eq]

theorem app_feasible_eq (data : Snapshot) (due : Nat) (pid : String) (q : Int) :
    App.feasible_new_cases data due pid q = Main.feasible_new_cases data due pid q := by
  unfold App.feasible_new_cases Main.feasible_new_cases
  rw [app_nc_eq, app_already_eq]
  by_cases h : Main.mat_blockers data pid
      (Main.new_capacity_cases data due pid (q - Main.already_planned_cases data due pid)) = []
  · rw [if_neg (by simpa [app_mat_empty_iff] using h), if_neg (by simpa using h)]
  · rw [if_pos (by simpa [app_mat_empty_iff] using h), if_pos (by simpa using h)]

theorem app_total_eq (data : Snapshot) (due : Nat) (pid : String) (q : Int) :
    App.total_feasible data due pid q = Main.total_feasible data due pid q := by
  unfold App.total_feasible Main.total_feasible
  rw [app_already_eq, app_feasible_eq]

theorem main_branch1 (due : Nat) (pid : String) (q : Int) (data : Snapshot)
    (h : Main.already_planned_cases data due pid ≥ q) :
    Main.simulate_request_core due pid q data =
      { status := "full", covered_qty_on_requested_date := q, remaining_qty := 0,
        existing_orders_used := Main.covering_rows data due pid,
        capacity_notes := [], material_notes := [] } := by
  unfold Main.simulate_request_core
  rw [if_pos h]

theorem main_branch2 (due : Nat) (pid : String) (q : Int) (data : Snapshot)
    (h1 : ¬ Main.already_planned_cases data due pid ≥ q)
    (h2 : Main.capable_lines data pid = []) :
    Main.simulate_request_core due pid q data =
      { status := "no",
        covered_qty_on_requested_date := Main.already_planned_cases data due pid,
        remaining_qty := q - Main.already_planned_cases data due pid,
        existing_orders_used := Main.covering_rows data due pid,
        capacity_notes := ["No capable line for this SKU"], material_notes := [] } := by
  unfold Main.simulate_request_core
  rw [if_neg h1, if_pos h2]

theorem main_branch3 (due : Nat) (pid : String) (q : Int) (data : Snapshot)
    (h1 : ¬ Main.already_planned_cases data due pid ≥ q)
    (h2 : ¬ Main.capable_lines data pid = [])
    (h3 : Main.capacity_shortfall data due pid q = 0 ∧
      Main.mat_blockers data pid
        (Main.new_capacity_cases data due pid (q - Main.already_planned_cases data due pid)) = []) :
    Main.simulate_request_core due pid q data =
      { status := "full", covered_qty_on_requested_date := q, remaining_qty := 0,
        existing_orders_used := Main.covering_rows data due pid ++
          Main.extra_plan_rows data due pid (q - Main.already_planned_cases data due pid),
        capacity_notes := [], material_notes := [] } := by
  unfold Main.simulate_request_core
  rw [if_neg h1, if_neg h2, if_pos h3]

theorem main_branch4 (due : Nat) (pid : String) (q : Int) (data : Snapshot)
    (h1 : ¬ Main.already_planned_cases data due pid ≥ q)
    (h2 : ¬ Main.capable_lines data pid = [])
    (h3 : ¬ (Main.capacity_shortfall data due pid q = 0 ∧
      Main.mat_blockers data pid
        (Main.new_capacity_cases data due pid (q - Main.already_planned_cases data due pid)) = [])) :
    Main.simulate_request_core due pid q data =
      { status := if 0 < Main.total_feasible data due pid q then "partial" else "no",
        covered_qty_on_requested_date := Main.total_feasible data due pid q,
        remaining_qty := max (q - Main.total_feasible data due pid q) 0,
        existing_orders_used := Main.covering_rows data due pid ++
          (if 0 < Main.feasible_new_cases data due pid q ∧
              Main.mat_blockers data pid
                (Main.new_capacity_cases data due pid
                  (q - Main.already_planned_cases data due pid)) = []
            then Main.extra_plan_rows data due pid (q - Main.already_planned_cases data due pid)
            else []),
        capacity_notes :=
          if 0 < Main.capacity_shortfall data due pid q then
            [Main.short_note (Main.capacity_shortfall data due pid q) due]
          else [],
        material_notes := Main.mat_blockers data pid
          (Main.new_capacity_cases data due pid
            (q - Main.already_planned_cases data due pid)) } := by
  unfold Main.simulate_request_core
  rw [if_neg h1, if_neg h2, if_neg h3]

theorem app_branch1 (due : Nat) (pid : String) (q : Int) (data : Snapshot)
    (h : App.already_planned_cases data due pid ≥ q) :
    App.simulate_request due pid q data =
      { can_fulfill := true, allocated_total := q, remaining := 0,
        plan_rows := App.covering_rows data due pid,
        material_blockers := [], capacity_blockers := [] } := by
  unfold App.simulate_request
  rw [if_pos h]

theorem app_branch2 (due : Nat) (pid : String) (q : Int) (data : Snapshot)
    (h1 : ¬ App.already_planned_cases data due pid ≥ q)
    (h2 : App.capable_lines data pid = []) :
    App.simulate_request due pid q data =
      { can_fulfill := false,
        allocated_total := App.already_planned_cases data due pid,
        remaining := q - App.already_planned_cases data due pid,
        plan_rows := App.covering_rows data due pid,
        material_blockers := ["No line can run this product"],
        capacity_blockers := ["No capable line found"] } := by
  unfold App.simulate_request
  rw [if_neg h1, if_pos h2]

theorem app_branch3 (due : Nat) (pid : String) (q : Int) (data : Snapshot)
    (h1 : ¬ App.already_planned_cases data due pid ≥ q)
    (h2 : ¬ App.capable_lines data pid = [])
    (h3 : App.capacity_shortfall data due pid q = 0 ∧
      App.mat_blockers data pid
        (App.new_capacity_cases data due pid (q - App.already_planned_cases data due pid)) = []) :
    App.simulate_request due pid q data =
      { can_fulfill := true, allocated_total := q, remaining := 0,
        plan_rows := App.covering_rows data due pid ++
          App.extra_plan_rows data due pid (q - App.already_planned_cases data due pid),
        material_blockers := [], capacity_blockers := [] } := by
  unfold App.simulate_request
  rw [if_neg h1, if_neg h2, if_pos h3]

theorem app_branch4 (due : Nat) (pid : String) (q : Int) (data : Snapshot)
    (h1 : ¬ App.already_planned_cases data due pid ≥ q)
    (h2 : ¬ App.capable_lines data pid = [])
    (h3 : ¬ (App.capacity_shortfall data due pid q = 0 ∧
      App.mat_blockers data pid
        (App.new_capacity_cases data due pid (q - App.already_planned_cases data due pid)) = [])) :
    App.simulate_request due pid q data =
      { can_fulfill := false,
        allocated_total := App.total_feasible data due pid q,
        remaining := max (q - App.total_feasible data due pid q) 0,
        plan_rows := App.covering_rows data due pid ++
          (if 0 < App.feasible_new_cases data due pid q ∧
              App.mat_blockers data pid
                (App.new_capacity_cases data due pid
                  (q - App.already_planned_cases data due pid)) = []
            then App.extra_plan_rows data due pid (q - App.already_planned_cases data due pid)
            else []),
        material_blockers := App.mat_blockers data pid
          (App.new_capacity_cases data due pid (q - App.already_planned_cases data due pid)),
        capacity_blockers :=
          if 0 < App.capacity_shortfall data due pid q then
            [App.short_note (App.capacity_shortfall data due pid q) due]
          else [] } := by
  unfold App.simulate_request
  rw [if_neg h1, if_neg h2, if_neg h3]

theorem rem_nonneg (due : Nat) (pid : String) (q : Int) (data : Snapshot) :
    0 ≤ (Main.simulate_request_core due pid q data).remaining_qty := by
  by_cases h1 : Main.already_planned_cases data due pid ≥ q
  · rw [main_branch1 due pid q data h1]
  · by_cases h2 : Main.capable_lines data pid = []
    · rw [main_branch2 due pid q data h1 h2]
      show 0 ≤ q - Main.already_planned_cases data due pid
      omega
    · by_cases h3 : Main.capacity_shortfall data due pid q = 0 ∧
        Main.mat_blockers data pid
          (Main.new_capacity_cases data due pid
            (q - Main.already_planned_cases data due pid)) = []
      · rw [main_branch3 due pid q data h1 h2 h3]
      · rw [main_branch4 due pid q data h1 h2 h3]
        show 0 ≤ max (q - Main.total_feasible data due pid q) 0
        omega

theorem shortfall_eq (due : Nat) (pid : String) (q : Int) (data : Snapshot)
    (h1 : ¬ Main.already_planned_cases data due pid ≥ q) :
    Main.capacity_shortfall data due pid q =
      max (q - Main.already_planned_cases data due pid -
        cap_sum data.lines (Main.sched_window data due) (Main.alloc_cells data due pid)) 0 := by
  have hnn := cap_sum_nonneg data.lines (Main.sched_window data due) (Main.alloc_cells data due pid)
  unfold Main.capacity_shortfall
  rw [new_capacity_min data due pid _ (by omega)]
  omega

theorem rem_char (due : Nat) (pid : String) (q : Int) (data : Snapshot)
    (h1 : ¬ Main.already_planned_cases data due pid ≥ q)
    (h2 : ¬ Main.capable_lines data pid = []) :
    (Main.simulate_request_core due pid q data).remaining_qty =
      if Main.mat_blockers data pid
          (Main.new_capacity_cases data due pid
            (q - Main.already_planned_cases data due pid)) = [] then
        max (q - Main.already_planned_cases data due pid -
          cap_sum data.lines (Main.sched_window data due) (Main.alloc_cells data due pid)) 0
      else q - Main.already_planned_cases data due pid := by
  have hnn := cap_sum_nonneg data.lines (Main.sched_window data due) (Main.alloc_cells data due pid)
  by_cases h3 : Main.capacity_shortfall data due pid q = 0 ∧
      Main.mat_blockers data pid
        (Main.new_capacity_cases data due pid
          (q - Main.already_planned_cases data due pid)) = []
  · obtain ⟨h3a, h3b⟩ := h3
    rw [main_branch3 due pid q data h1 h2 ⟨h3a, h3b⟩, if_pos h3b]
    show (0 : Int) = _
    rw [← shortfall_eq due pid q data h1]
    exact h3a.symm
  · rw [main_branch4 due pid q data h1 h2 h3]
    show max (q - Main.total_feasible data due pid q) 0 = _
    by_cases hm : Main.mat_blockers data pid
        (Main.new_capacity_cases data due pid
          (q - Main.already_planned_cases data due pid)) = []
    · rw [if_pos hm]
      unfold Main.total_feasible Main.feasible_new_cases
      rw [if_neg (fun hcon => hcon hm)]
      rw [new_capacity_min data due pid _ (by omega)]
      omega
    · rw [if_neg hm]
      unfold Main.total_feasible Main.feasible_new_cases
      rw [if_pos hm]
      omega

theorem sum_nonneg_already (due : Nat) (pid : String) (data : Snapshot)
    (hs : ∀ r ∈ data.schedule, 0 ≤ r.planned_qty_cases) :
    0 ≤ Main.already_planned_cases data due pid := by
  apply List.sum_nonneg
  intro x hx
  rcases List.mem_map.mp hx with ⟨r, hr, rfl⟩
  have hr1 : r ∈ Main.sched_window data due := List.mem_of_mem_filter hr
  exact hs r (List.mem_of_mem_filter hr1)

theorem mat_blockers_mono (data : Snapshot) (pid : String) (n1 n2 : Int)
    (h12 : n1 ≤ n2) (hb : ∀ b ∈ data.bom, 0 ≤ b.qty_per_case)
    (hne : Main.mat_blockers data pid n1 ≠ []) :
    Main.mat_blockers data pid n2 ≠ [] := by
  unfold Main.mat_blockers at hne ⊢
  by_cases hp1 : 0 < n1
  · have hp2 : 0 < n2 := by omega
    rw [if_pos hp1] at hne
    rw [if_pos hp2]
    by_cases hb0 : data.bom.filter (fun b => b.product_id == pid) = []
    · rw [if_pos hb0] at hne
      rw [if_pos hb0]
      exact hne
    · rw [if_neg hb0] at hne
      rw [if_neg hb0]
      rw [Ne, List.flatMap_eq_nil_iff] at hne
      rw [Ne, List.flatMap_eq_nil_iff]
      intro hall
      apply hne
      intro b hbmem
      have hq : 0 ≤ b.qty_per_case := hb b (List.mem_of_mem_filter hbmem)
      have hmul : b.qty_per_case * n1 ≤ b.qty_per_case * n2 :=
        mul_le_mul_of_nonneg_left h12 hq
      have h2 := hall b hbmem
      rw [List.filterMap_eq_nil_iff] at h2 ⊢
      intro oh hoh
      have h3 := h2 oh hoh
      by_cases hlt : oh.getD 0 < b.qty_per_case * n1
      · exfalso
        rw [if_pos (by omega : oh.getD 0 < b.qty_per_case * n2)] at h3
        exact Option.some_ne_none _ h3
      · rw [if_neg hlt]
  · rw [if_neg hp1] at hne
    exact absurd rfl hne

theorem join_on_hand_single (inv : List InvRow)
    (hinv : (inv.map (fun i => i.material_id)).Nodup) (b : BomRow) :
    Main.join_on_hand inv b = [inv_row_of inv b.material_id] := by
  induction inv with
  | nil => rfl
  | cons i is ih =>
    simp only [List.map_cons, List.nodup_cons] at hinv
    obtain ⟨hni, hnis⟩ := hinv
    cases hm : (i.material_id == b.material_id) with
    | true =>
      have hmeq : i.material_id = b.material_id := by simpa using hm
      have hrest : is.filter (fun j => j.material_id == b.material_id) = [] := by
        rw [List.filter_eq_nil_iff]
        intro j hj
        have : j.material_id ≠ i.material_id := by
          intro hc
          exact hni (List.mem_map.mpr ⟨j, hj, hc⟩)
        simp only [hmeq] at this
        simpa using this
      have hfilter : (i :: is).filter (fun j => j.material_id == b.material_id) = [i] := by
        rw [List.filter_cons_of_pos (by simpa using hm), hrest]
      have hfind : (i :: is).find? (fun j => j.material_id == b.material_id) = some i :=
        List.find?_cons_of_pos _ (by simpa using hm)
      unfold Main.join_on_hand inv_row_of
      rw [hfilter, hfind]
      rfl
    | false =>
      have hfilter : (i :: is).filter (fun j => j.material_id == b.material_id) =
          is.filter (fun j => j.material_id == b.material_id) :=
        List.filter_cons_of_neg (by simpa using hm)
      have hfind : (i :: is).find? (fun j => j.material_id == b.material_id) =
          is.find? (fun j => j.material_id == b.material_id) :=
        List.find?_cons_of_neg _ (by simpa using hm)
      have hjoin : Main.join_on_hand (i :: is) b = Main.join_on_hand is b := by
        unfold Main.join_on_hand
        rw [hfilter]
      rw [hjoin]
      unfold inv_row_of
      rw [hfind]
      exact ih hnis

theorem flatMap_singleton_filterMap {α β γ : Type} (l : List α) (j : α → β)
    (g : α → β → Option γ) :
    (l.flatMap (fun b => ([j b]).filterMap (g b))) = l.filterMap (fun b => g b (j b)) := by
  induction l with
  | nil => rfl
  | cons b bs ih =>
    rw [List.flatMap_cons, ih, List.filterMap_cons]
    cases hg : g b (j b) <;> simp [List.filterMap_cons, hg]

theorem filter_map_firm (f : Run → Bool) (p : Run → Bool)
    (hp : ∀ r, p { r with is_firm := f r } = p r) (l : List Run) :
    (l.map (fun r => { r with is_firm := f r })).filter p =
      (l.filter p).map (fun r => { r with is_firm := f r }) := by
  induction l with
  | nil => rfl
  | cons r l ih =>
    simp only [List.map_cons, List.filter_cons, hp r]
    cases hpr : p r <;> simp [hpr, ih]

theorem wf_window (data : Snapshot) (f : Run → Bool) (due : Nat) :
    Main.sched_window (data.with_firm f) due =
      (Main.sched_window data due).map (fun r => { r with is_firm := f r }) := by
  unfold Main.sched_window Snapshot.with_firm
  exact filter_map_firm f (fun r => decide (r.production_date ≤ due)) (fun r => rfl) data.schedule

theorem wf_planned (window : List Run) (f : Run → Bool) (line d : Nat) :
    Main.planned_on (window.map (fun r => { r with is_firm := f r })) line d =
      Main.planned_on window line d := by
  unfold Main.planned_on
  rw [filter_map_firm f (fun r => r.line_id == line && r.production_date == d) (fun r => rfl),
    List.map_map]
  rfl

theorem wf_dates (data : Snapshot) (f : Run → Bool) (due : Nat) :
    Main.window_dates (data.with_firm f) due = Main.window_dates data due := by
  unfold Main.window_dates
  rw [wf_window, List.map_map]
  rfl

theorem wf_cells (data : Snapshot) (f : Run → Bool) (due : Nat) (pid : String) :
    Main.alloc_cells (data.with_firm f) due pid = Main.alloc_cells data due pid := by
  unfold Main.alloc_cells
  rw [wf_dates]
  have hcap : Main.capable_lines (data.with_firm f) pid = Main.capable_lines data pid := rfl
  rw [hcap]

theorem wf_alloc_state (data : Snapshot) (f : Run → Bool) (due : Nat) (pid : String)
    (need : Int) :
    Main.alloc_state (data.with_firm f) due pid need = Main.alloc_state data due pid need := by
  unfold Main.alloc_state
  rw [wf_cells]
  have hlines : (Snapshot.with_firm data f).lines = data.lines := rfl
  rw [hlines]
  have hstep : Main.alloc_step data.lines (Main.sched_window (data.with_firm f) due) =
      Main.alloc_step data.lines (Main.sched_window data due) := by
    funext st c
    unfold Main.alloc_step
    rw [wf_window, wf_planned]
  rw [hstep]

theorem wf_extra (data : Snapshot) (f : Run → Bool) (due : Nat) (pid : String) (need : Int) :
    Main.extra_plan_rows (data.with_firm f) due pid need =
      Main.extra_plan_rows data due pid need := by
  unfold Main.extra_plan_rows
  rw [wf_alloc_state]

theorem wf_nc (data : Snapshot) (f : Run → Bool) (due : Nat) (pid : String) (need : Int) :
    Main.new_capacity_cases (data.with_firm f) due pid need =
      Main.new_capacity_cases data due pid need := by
  unfold Main.new_capacity_cases
  rw [wf_alloc_state]

theorem window_dates_pairwise (data : Snapshot) (due : Nat) :
    (Main.window_dates data due).Pairwise (· < ·) := by
  unfold Main.window_dates
  exact sortedUnique_pairwise _

theorem capable_lines_nodup (data : Snapshot) (pid : String) :
    (Main.capable_lines data pid).Nodup := by
  unfold Main.capable_lines
  exact dedupFirst_nodup _

theorem alloc_cells_nodup (data : Snapshot) (due : Nat) (pid : String) :
    (Main.alloc_cells data due pid).Nodup := by
  unfold Main.alloc_cells
  exact pairwise_flatMap_pairs (Main.window_dates data due) (Main.capable_lines data pid)
    (window_dates_pairwise data due) (capable_lines_nodup data pid)
    (fun d d' l l' hdd => by
      intro heq
      rw [Prod.mk.injEq] at heq
      omega)
    (fun d l l' hll => by
      intro heq
      rw [Prod.mk.injEq] at heq
      exact hll heq.2)

theorem alloc_cells_pairwise_lt (data : Snapshot) (due : Nat) (pid : String)
    (h : (Main.capable_lines data pid).Pairwise (· < ·)) :
    (Main.alloc_cells data due pid).Pairwise pairLt := by
  unfold Main.alloc_cells
  exact pairwise_flatMap_pairs (Main.window_dates data due) (Main.capable_lines data pid)
    (window_dates_pairwise data due) h
    (fun d d' l l' hdd => Or.inl hdd)
    (fun d l l' hll => Or.inr ⟨rfl, hll⟩)

theorem sim_agree (due : Nat) (pid : String) (q : Int) (data : Snapshot) :
    (App.simulate_request due pid q data).allocated_total =
      (Main.simulate_request_core due pid q data).covered_qty_on_requested_date ∧
    (App.simulate_request due pid q data).remaining =
      (Main.simulate_request_core due pid q data).remaining_qty ∧
    (App.simulate_request due pid q data).plan_rows =
      (Main.simulate_request_core due pid q data).existing_orders_used ∧
    (App.simulate_request due pid q data).capacity_blockers.length =
      (Main.simulate_request_core due pid q data).capacity_notes.length ∧
    ((App.simulate_request due pid q data).can_fulfill = true ↔
      (Main.simulate_request_core due pid q data).status = "full") ∧
    (App.simulate_request due pid q data).material_blockers.length =
      (Main.simulate_request_core due pid q data).material_notes.length +
        (if ¬ Main.already_planned_cases data due pid ≥ q ∧ Main.capable_lines data pid = []
          then 1 else 0) := by
  by_cases h1 : Main.already_planned_cases data due pid ≥ q
  · rw [main_branch1 due pid q data h1, app_branch1 due pid q data h1]
    exact ⟨rfl, rfl, rfl, rfl, by simp, by simp [h1]⟩
  · by_cases h2 : Main.capable_lines data pid = []
    · rw [main_branch2 due pid q data h1 h2, app_branch2 due pid q data h1 h2]
      refine ⟨rfl, rfl, rfl, rfl, ?_, ?_⟩
      · show false = true ↔ ("no" : String) = "full"
        decide
      · rw [if_pos ⟨h1, h2⟩]
        rfl
    · by_cases h3 : Main.capacity_shortfall data due pid q = 0 ∧
          Main.mat_blockers data pid (Main.new_capacity_cases data due pid
            (q - Main.already_planned_cases data due pid)) = []
      · have h3' : App.capacity_shortfall data due pid q = 0 ∧
            App.mat_blockers data pid (App.new_capacity_cases data due pid
              (q - App.already_planned_cases data due pid)) = [] :=
          ⟨h3.1, (app_mat_empty_iff data pid _).mpr h3.2⟩
        rw [main_branch3 due pid q data h1 h2 h3, app_branch3 due pid q data h1 h2 h3']
        exact ⟨rfl, rfl, rfl, rfl, by simp, by simp [h2]⟩
      · have h3' : ¬ (App.capacity_shortfall data due pid q = 0 ∧
            App.mat_blockers data pid (App.new_capacity_cases data due pid
              (q - App.already_planned_cases data due pid)) = []) := by
          intro hcon
          exact h3 ⟨hcon.1, (app_mat_empty_iff data pid _).mp hcon.2⟩
        rw [main_branch4 due pid q data h1 h2 h3, app_branch4 due pid q data h1 h2 h3']
        simp only [app_nc_eq, app_already_eq, app_extra_eq, app_covering_eq,
          app_shortfall_eq, app_short_note_eq]
        have hiff : (0 < App.feasible_new_cases data due pid q ∧
            App.mat_blockers data pid (Main.new_capacity_cases data due pid
              (q - Main.already_planned_cases data due pid)) = []) ↔
            (0 < Main.feasible_new_cases data due pid q ∧
            Main.mat_blockers data pid (Main.new_capacity_cases data due pid
              (q - Main.already_planned_cases data due pid)) = []) := by
          rw [app_feasible_eq, app_mat_empty_iff]
        refine ⟨app_total_eq data due pid q, by rw [app_total_eq], ?_, by trivial, ?_, ?_⟩
        · congr 1
          by_cases hc : 0 < Main.feasible_new_cases data due pid q ∧
              Main.mat_blockers data pid (Main.new_capacity_cases data due pid
                (q - Main.already_planned_cases data due pid)) = []
          · rw [if_pos hc, if_pos (hiff.mpr hc)]
          · rw [if_neg hc, if_neg (fun hcon => hc (hiff.mp hcon))]
        · by_cases ht : 0 < Main.total_feasible data due pid q
          · rw [if_pos ht]
            show false = true ↔ ("partial" : String) = "full"
            decide
          · rw [if_neg ht]
            show false = true ↔ ("no" : String) = "full"
            decide
        · rw [if_neg (fun hcon => h2 hcon.2)]
          simpa using app_mat_len_eq data pid _

theorem main_status_iff (due : Nat) (pid : String) (q : Int) (data : Snapshot) :
    ((Main.simulate_request_core due pid q data).status = "full" ↔
      (Main.simulate_request_core due pid q data).remaining_qty = 0) ∧
    (((Main.simulate_request_core due pid q data).status = "partial" ∨
        (Main.simulate_request_core due pid q data).status = "no") ↔
      0 < (Main.simulate_request_core due pid q data).remaining_qty) := by
  by_cases h1 : Main.already_planned_cases data due pid ≥ q
  · rw [main_branch1 due pid q data h1]
    constructor
    · show ("full" : String) = "full" ↔ (0 : Int) = 0
      decide
    · show (("full" : String) = "partial" ∨ ("full" : String) = "no") ↔ (0 : Int) < 0
      decide
  · by_cases h2 : Main.capable_lines data pid = []
    · rw [main_branch2 due pid q data h1 h2]
      constructor
      · show ("no" : String) = "full" ↔ q - Main.already_planned_cases data due pid = 0
        constructor
        · intro h; exact absurd h (by decide)
        · intro h; exact absurd h (by omega)
      · show (("no" : String) = "partial" ∨ ("no" : String) = "no") ↔
          0 < q - Main.already_planned_cases data due pid
        constructor
        · intro _; omega
        · intro _; exact Or.inr rfl
    · by_cases h3 : Main.capacity_shortfall data due pid q = 0 ∧
          Main.mat_blockers data pid (Main.new_capacity_cases data due pid
            (q - Main.already_planned_cases data due pid)) = []
      · rw [main_branch3 due pid q data h1 h2 h3]
        constructor
        · show ("full" : String) = "full" ↔ (0 : Int) = 0
          decide
        · show (("full" : String) = "partial" ∨ ("full" : String) = "no") ↔ (0 : Int) < 0
          decide
      · rw [main_branch4 due pid q data h1 h2 h3]
        have htf : Main.total_feasible data due pid q < q := by
          by_cases hm : Main.mat_blockers data pid (Main.new_capacity_cases data due pid
              (q - Main.already_planned_cases data due pid)) = []
          · have hs0 : ¬ Main.capacity_shortfall data due pid q = 0 := fun hcon => h3 ⟨hcon, hm⟩
            have hsf : Main.capacity_shortfall data due pid q =
                max (q - (Main.already_planned_cases data due pid +
                  Main.new_capacity_cases data due pid
                    (q - Main.already_planned_cases data due pid))) 0 := rfl
            have hfeq : Main.total_feasible data due pid q =
                Main.already_planned_cases data due pid +
                  Main.new_capacity_cases data due pid
                    (q - Main.already_planned_cases data due pid) := by
              unfold Main.total_feasible Main.feasible_new_cases
              rw [if_neg (fun hcon => hcon hm)]
            omega
          · have hfeq : Main.total_feasible data due pid q =
                Main.already_planned_cases data due pid := by
              unfold Main.total_feasible Main.feasible_new_cases
              rw [if_pos hm]
              omega
            omega
        constructor
        · show (if 0 < Main.total_feasible data due pid q then ("partial" : String) else "no") =
              "full" ↔ max (q - Main.total_feasible data due pid q) 0 = 0
          constructor
          · intro h
            by_cases ht : 0 < Main.total_feasible data due pid q
            · rw [if_pos ht] at h; exact absurd h (by decide)
            · rw [if_neg ht] at h; exact absurd h (by decide)
          · intro h; exfalso; omega
        · show ((if 0 < Main.total_feasible data due pid q then ("partial" : String) else "no") =
              "partial" ∨
            (if 0 < Main.total_feasible data due pid q then ("partial" : String) else "no") =
              "no") ↔ 0 < max (q - Main.total_feasible data due pid q) 0
          constructor
          · intro _; omega
          · intro _
            by_cases ht : 0 < Main.total_feasible data due pid q
            · rw [if_pos ht]; exact Or.inl rfl
            · rw [if_neg ht]; exact Or.inr rfl

/-- C1: for every input the simulation result satisfies allocated total plus
remaining equals the requested quantity — `covered_qty_on_requested_date +
remaining_qty = requested` in `main.py` and `allocated_total + remaining =
requested` in `app.py` — covering all four classifier branches. -/
theorem claim1_allocated_plus_remaining (due : Nat) (pid : String) (q : Int) (data : Snapshot) :
    (Main.simulate_request_core due pid q data).covered_qty_on_requested_date +
      (Main.simulate_request_core due pid q data).remaining_qty = q ∧
    (App.simulate_request due pid q data).allocated_total +
      (App.simulate_request due pid q data).remaining = q := by
  have hmain : (Main.simulate_request_core due pid q data).covered_qty_on_requested_date +
      (Main.simulate_request_core due pid q data).remaining_qty = q := by
    by_cases h1 : Main.already_planned_cases data due pid ≥ q
    · rw [main_branch1 due pid q data h1]
      show q + 0 = q
      omega
    · by_cases h2 : Main.capable_lines data pid = []
      · rw [main_branch2 due pid q data h1 h2]
        show Main.already_planned_cases data due pid +
          (q - Main.already_planned_cases data due pid) = q
        omega
      · by_cases h3 : Main.capacity_shortfall data due pid q = 0 ∧
            Main.mat_blockers data pid (Main.new_capacity_cases data due pid
              (q - Main.already_planned_cases data due pid)) = []
        · rw [main_branch3 due pid q data h1 h2 h3]
          show q + 0 = q
          omega
        · rw [main_branch4 due pid q data h1 h2 h3]
          show Main.total_feasible data due pid q +
            max (q - Main.total_feasible data due pid q) 0 = q
          have hbnd := new_capacity_bounds data due pid
            (q - Main.already_planned_cases data due pid) (by omega)
          have hf : Main.feasible_new_cases data due pid q = 0 ∨
              Main.feasible_new_cases data due pid q =
                Main.new_capacity_cases data due pid
                  (q - Main.already_planned_cases data due pid) := by
            unfold Main.feasible_new_cases
            by_cases hm : Main.mat_blockers data pid (Main.new_capacity_cases data due pid
                (q - Main.already_planned_cases data due pid)) = []
            · right; rw [if_neg (fun hcon => hcon hm)]
            · left; rw [if_pos hm]
          unfold Main.total_feasible
          rcases hf with hf | hf <;> rw [hf] <;> omega
  obtain ⟨ha, hr, _, _, _, _⟩ := sim_agree due pid q data
  exact ⟨hmain, by rw [ha, hr]; exact hmain⟩

/-- C10: the returned status is "full" exactly when the remaining quantity is
zero, the remaining quantity is never negative, a "partial" or "no" status
holds exactly when remaining is strictly positive, and in `app.py`
`can_fulfill` holds exactly when its `remaining` is zero. -/
theorem claim10_full_iff_remaining_zero (due : Nat) (pid : String) (q : Int) (data : Snapshot) :
    ((Main.simulate_request_core due pid q data).status = "full" ↔
      (Main.simulate_request_core due pid q data).remaining_qty = 0) ∧
    0 ≤ (Main.simulate_request_core due pid q data).remaining_qty ∧
    (((Main.simulate_request_core due pid q data).status = "partial" ∨
        (Main.simulate_request_core due pid q data).status = "no") ↔
      0 < (Main.simulate_request_core due pid q data).remaining_qty) ∧
    ((App.simulate_request due pid q data).can_fulfill = true ↔
      (App.simulate_request due pid q data).remaining = 0) := by
  obtain ⟨hiff1, hiff3⟩ := main_status_iff due pid q data
  obtain ⟨_, hrem, _, _, hcf, _⟩ := sim_agree due pid q data
  refine ⟨hiff1, rem_nonneg due pid q data, hiff3, ?_⟩
  rw [hcf, hrem]
  exact hiff1

/-- C9 (amended): for every identical input the two duplicated implementations
agree on allocated total, remaining, the plan rows in order, the number of
capacity blockers, and `can_fulfill` holds exactly when the status is "full";
the material-blocker counts agree except in the no-capable-line branch, where
`app.py` reports one extra material blocker ("No line can run this product")
that `main.py` does not. -/
theorem claim9_implementations_agree (due : Nat) (pid : String) (q : Int) (data : Snapshot) :
    (App.simulate_request due pid q data).allocated_total =
      (Main.simulate_request_core due pid q data).covered_qty_on_requested_date ∧
    (App.simulate_request due pid q data).remaining =
      (Main.simulate_request_core due pid q data).remaining_qty ∧
    (App.simulate_request due pid q data).plan_rows =
      (Main.simulate_request_core due pid q data).existing_orders_used ∧
    (App.simulate_request due pid q data).capacity_blockers.length =
      (Main.simulate_request_core due pid q data).capacity_notes.length ∧
    ((App.simulate_request due pid q data).can_fulfill = true ↔
      (Main.simulate_request_core due pid q data).status = "full") ∧
    (App.simulate_request due pid q data).material_blockers.length =
      (Main.simulate_request_core due pid q data).material_notes.length +
        (if ¬ Main.already_planned_cases data due pid ≥ q ∧ Main.capable_lines data pid = []
          then 1 else 0) :=
  sim_agree due pid q data

/-- C9 counterexample: on a snapshot with no capable line and less than the
request already planned, the two implementations disagree on the number of
material blockers, refuting the claimed full agreement. -/
theorem claim9_counterexample :
    (App.simulate_request 2 "P" 4 snapC9cex).material_blockers.length ≠
      (Main.simulate_request_core 2 "P" 4 snapC9cex).material_notes.length := by
  decide

/-- C8: for a fixed snapshot whose BOM coefficients are nonnegative (the spec's
data-model invariant), increasing the requested quantity never decreases the
returned remaining quantity, in either implementation. -/
theorem claim8_remaining_monotone (due : Nat) (pid : String) (data : Snapshot) (q1 q2 : Int)
    (h0 : 0 < q1) (h12 : q1 ≤ q2)
    (hb : List.Forall (fun b => 0 ≤ b.qty_per_case) data.bom) :
    (Main.simulate_request_core due pid q1 data).remaining_qty ≤
      (Main.simulate_request_core due pid q2 data).remaining_qty ∧
    (App.simulate_request due pid q1 data).remaining ≤
      (App.simulate_request due pid q2 data).remaining := by
  have hb' : ∀ b ∈ data.bom, 0 ≤ b.qty_per_case := List.forall_iff_forall_mem.mp hb
  have hmain : (Main.simulate_request_core due pid q1 data).remaining_qty ≤
      (Main.simulate_request_core due pid q2 data).remaining_qty := by
    by_cases hq1 : Main.already_planned_cases data due pid ≥ q1
    · rw [main_branch1 due pid q1 data hq1]
      show (0 : Int) ≤ _
      exact rem_nonneg due pid q2 data
    · have hq2 : ¬ Main.already_planned_cases data due pid ≥ q2 := by omega
      by_cases hcap : Main.capable_lines data pid = []
      · rw [main_branch2 due pid q1 data hq1 hcap, main_branch2 due pid q2 data hq2 hcap]
        show q1 - Main.already_planned_cases data due pid ≤
          q2 - Main.already_planned_cases data due pid
        omega
      · rw [rem_char due pid q1 data hq1 hcap, rem_char due pid q2 data hq2 hcap]
        have hS := cap_sum_nonneg data.lines (Main.sched_window data due)
          (Main.alloc_cells data due pid)
        have hmin1 := new_capacity_min data due pid
          (q1 - Main.already_planned_cases data due pid) (by omega)
        have hmin2 := new_capacity_min data due pid
          (q2 - Main.already_planned_cases data due pid) (by omega)
        by_cases hm1 : Main.mat_blockers data pid (Main.new_capacity_cases data due pid
            (q1 - Main.already_planned_cases data due pid)) = []
        · rw [if_pos hm1]
          by_cases hm2 : Main.mat_blockers data pid (Main.new_capacity_cases data due pid
              (q2 - Main.already_planned_cases data due pid)) = []
          · rw [if_pos hm2]
            omega
          · rw [if_neg hm2]
            omega
        · have hm2 : Main.mat_blockers data pid (Main.new_capacity_cases data due pid
              (q2 - Main.already_planned_cases data due pid)) ≠ [] :=
            mat_blockers_mono data pid _ _ (by omega) hb' hm1
          rw [if_neg hm1, if_neg hm2]
          omega
  obtain ⟨_, hr1, _, _, _, _⟩ := sim_agree due pid q1 data
  obtain ⟨_, hr2, _, _, _, _⟩ := sim_agree due pid q2 data
  exact ⟨hmain, by rw [hr1, hr2]; exact hmain⟩

/-- Witness for C8 at a concrete snapshot and quantities 1 ≤ 2. -/
theorem claim8_witness :
    (0 < (1 : Int) ∧ (1 : Int) ≤ 2 ∧
      List.Forall (fun b => 0 ≤ b.qty_per_case) snapC8w.bom) ∧
    ((Main.simulate_request_core 1 "P" 1 snapC8w).remaining_qty ≤
      (Main.simulate_request_core 1 "P" 2 snapC8w).remaining_qty ∧
    (App.simulate_request 1 "P" 1 snapC8w).remaining ≤
      (App.simulate_request 1 "P" 2 snapC8w).remaining) :=
  ⟨⟨by decide, by decide, by decide⟩,
    claim8_remaining_monotone 1 "P" snapC8w 1 2 (by decide) (by decide) (by decide)⟩

/-- C2: in the final classifier branch, material blockers zero the newly
allocated quantity even when capacity alone sufficed; the allocated total is
already-planned plus feasible-new; new-plan rows appear in the plan exactly
when feasible-new is positive; the status is "partial" exactly when the
allocated total is positive and "no" otherwise; and the capacity notes carry a
shortfall note exactly when the capacity shortfall is positive, independently
of whether materials were the real limiting factor. -/
theorem claim2_otherwise_branch (due : Nat) (pid : String) (q : Int) (data : Snapshot)
    (h1 : ¬ Main.already_planned_cases data due pid ≥ q)
    (h2 : ¬ Main.capable_lines data pid = [])
    (h3 : ¬ (Main.capacity_shortfall data due pid q = 0 ∧
      Main.mat_blockers data pid (Main.new_capacity_cases data due pid
        (q - Main.already_planned_cases data due pid)) = [])) :
    (Main.mat_blockers data pid (Main.new_capacity_cases data due pid
        (q - Main.already_planned_cases data due pid)) ≠ [] →
      (Main.simulate_request_core due pid q data).covered_qty_on_requested_date =
        Main.already_planned_cases data due pid) ∧
    (Main.simulate_request_core due pid q data).covered_qty_on_requested_date =
      Main.already_planned_cases data due pid + Main.feasible_new_cases data due pid q ∧
    (Main.simulate_request_core due pid q data).existing_orders_used =
      Main.covering_rows data due pid ++
        (if 0 < Main.feasible_new_cases data due pid q then
          Main.extra_plan_rows data due pid (q - Main.already_planned_cases data due pid)
        else []) ∧
    (Main.simulate_request_core due pid q data).status =
      (if 0 < (Main.simulate_request_core due pid q data).covered_qty_on_requested_date
        then "partial" else "no") ∧
    (Main.simulate_request_core due pid q data).capacity_notes =
      (if 0 < Main.capacity_shortfall data due pid q then
        [Main.short_note (Main.capacity_shortfall data due pid q) due] else []) := by
  rw [main_branch4 due pid q data h1 h2 h3]
  refine ⟨?_, rfl, ?_, rfl, rfl⟩
  · intro hm
    show Main.total_feasible data due pid q = Main.already_planned_cases data due pid
    unfold Main.total_feasible Main.feasible_new_cases
    rw [if_pos hm]
    omega
  · show Main.covering_rows data due pid ++ _ = Main.covering_rows data due pid ++ _
    congr 1
    by_cases hf : 0 < Main.feasible_new_cases data due pid q
    · have hm : Main.mat_blockers data pid (Main.new_capacity_cases data due pid
          (q - Main.already_planned_cases data due pid)) = [] := by
        by_contra hmc
        have hz : Main.feasible_new_cases data due pid q = 0 := by
          unfold Main.feasible_new_cases
          rw [if_pos hmc]
        omega
      rw [if_pos ⟨hf, hm⟩, if_pos hf]
    · rw [if_neg (fun hcon => hf hcon.1), if_neg hf]

/-- Witness for C2 on a snapshot where capacity would cover the request but a
material shortage blocks the new allocation. -/
theorem claim2_witness :
    (¬ Main.already_planned_cases snapC2w 3 "P" ≥ 10 ∧
      ¬ Main.capable_lines snapC2w "P" = [] ∧
      ¬ (Main.capacity_shortfall snapC2w 3 "P" 10 = 0 ∧
        Main.mat_blockers snapC2w "P" (Main.new_capacity_cases snapC2w 3 "P"
          (10 - Main.already_planned_cases snapC2w 3 "P")) = [])) ∧
    ((Main.mat_blockers snapC2w "P" (Main.new_capacity_cases snapC2w 3 "P"
        (10 - Main.already_planned_cases snapC2w 3 "P")) ≠ [] →
      (Main.simulate_request_core 3 "P" 10 snapC2w).covered_qty_on_requested_date =
        Main.already_planned_cases snapC2w 3 "P") ∧
    (Main.simulate_request_core 3 "P" 10 snapC2w).covered_qty_on_requested_date =
      Main.already_planned_cases snapC2w 3 "P" + Main.feasible_new_cases snapC2w 3 "P" 10 ∧
    (Main.simulate_request_core 3 "P" 10 snapC2w).existing_orders_used =
      Main.covering_rows snapC2w 3 "P" ++
        (if 0 < Main.feasible_new_cases snapC2w 3 "P" 10 then
          Main.extra_plan_rows snapC2w 3 "P" (10 - Main.already_planned_cases snapC2w 3 "P")
        else []) ∧
    (Main.simulate_request_core 3 "P" 10 snapC2w).status =
      (if 0 < (Main.simulate_request_core 3 "P" 10 snapC2w).covered_qty_on_requested_date
        then "partial" else "no") ∧
    (Main.simulate_request_core 3 "P" 10 snapC2w).capacity_notes =
      (if 0 < Main.capacity_shortfall snapC2w 3 "P" 10 then
        [Main.short_note (Main.capacity_shortfall snapC2w 3 "P" 10) 3] else [])) :=
  ⟨⟨by decide, by decide, by decide⟩,
    claim2_otherwise_branch 3 "P" 10 snapC2w (by decide) (by decide) (by decide)⟩

/-- C3 (amended): the allocator walks the (date, line) cells in ascending date
order with lines in the first-occurrence order of the capability table (not
sorted by line id); the emitted new-plan rows' (date, line) pairs form a
sublist of that traversal, and whenever the deduplicated capable lines happen
to be in ascending line-id order the emitted rows are strictly ascending in
(date, line id). -/
theorem claim3_allocation_order (data : Snapshot) (due : Nat) (pid : String) (need : Int)
    (h : (Main.capable_lines data pid).Pairwise (· < ·)) :
    List.Sublist ((Main.extra_plan_rows data due pid need).map pairOf)
      (Main.alloc_cells data due pid) ∧
    ((Main.extra_plan_rows data due pid need).map pairOf).Pairwise pairLt := by
  obtain ⟨hsub, _⟩ := alloc_rows_spec data.lines (Main.sched_window data due)
    (Main.alloc_cells data due pid) need
  exact ⟨hsub, (alloc_cells_pairwise_lt data due pid h).sublist hsub⟩

/-- C3 counterexample: with the capability rows listing line 2 before line 1,
the deduplicated capable-lines list is [2, 1] — not sorted ascending — and the
emitted new-plan rows are not in ascending (date, line id) order. -/
theorem claim3_counterexample :
    Main.capable_lines snapC3 "P" = [2, 1] ∧
    pairs_asc ((Main.extra_plan_rows snapC3 5 "P" 15).map pairOf) = false := by
  decide

/-- Witness for C3 (amended) on a snapshot whose capability rows are ascending. -/
theorem claim3_witness :
    (Main.capable_lines snapC3w "P").Pairwise (· < ·) ∧
    (List.Sublist ((Main.extra_plan_rows snapC3w 5 "P" 15).map pairOf)
      (Main.alloc_cells snapC3w 5 "P") ∧
    ((Main.extra_plan_rows snapC3w 5 "P" 15).map pairOf).Pairwise pairLt) :=
  ⟨by decide, claim3_allocation_order snapC3w 5 "P" 15 (by decide)⟩

/-- C4 (amended): a malformed due date makes the call fail — the pandas parse
raises and the error propagates to the caller, modelled as `none` — but a
non-positive requested quantity is not rejected: with nonnegative scheduled
quantities the engine silently returns a "full" result whose covered quantity
equals the request and whose remaining quantity is zero. -/
theorem claim4_invalid_input (due : Nat) (pid : String) (q : Int) (data : Snapshot)
    (hq : q ≤ 0)
    (hs : List.Forall (fun r => 0 ≤ r.planned_qty_cases) data.schedule) :
    Main.simulate_request_core_of_parsed none pid q data = none ∧
    Main.simulate_request_core due pid q data =
      { status := "full", covered_qty_on_requested_date := q, remaining_qty := 0,
        existing_orders_used := Main.covering_rows data due pid,
        capacity_notes := [], material_notes := [] } := by
  refine ⟨rfl, ?_⟩
  have ha := sum_nonneg_already due pid data (List.forall_iff_forall_mem.mp hs)
  exact main_branch1 due pid q data (by omega)

/-- C4 counterexample: the requested quantity 0 is not positive, yet the call
does not fail — it returns a result, with status "full" and zero remaining. -/
theorem claim4_counterexample :
    Main.simulate_request_core_of_parsed (some 1) "P" 0 snapC4 ≠ none ∧
    (Main.simulate_request_core 1 "P" 0 snapC4).status = "full" ∧
    (Main.simulate_request_core 1 "P" 0 snapC4).remaining_qty = 0 := by
  decide

/-- Witness for C4 (amended) at quantity 0 on a snapshot with one planned run. -/
theorem claim4_witness :
    ((0 : Int) ≤ 0 ∧ List.Forall (fun r => 0 ≤ r.planned_qty_cases) snapC4w.schedule) ∧
    (Main.simulate_request_core_of_parsed none "P" 0 snapC4w = none ∧
    Main.simulate_request_core 2 "P" 0 snapC4w =
      { status := "full", covered_qty_on_requested_date := 0, remaining_qty := 0,
        existing_orders_used := Main.covering_rows snapC4w 2 "P",
        capacity_notes := [], material_notes := [] }) :=
  ⟨⟨by decide, by decide⟩, claim4_invalid_input 2 "P" 0 snapC4w (by decide) (by decide)⟩

/-- C5: every new-plan row allocates a positive quantity of at most the cell's
headroom max(daily_capacity − cases already scheduled on that line and date
across all products, 0); each (date, line) pair receives at most one new-plan
row; and rewriting the `is_firm` flags of the schedule changes neither the
emitted rows nor the newly allocated amount — firm and flexible runs count
against daily capacity equally. -/
theorem claim5_headroom_bound (data : Snapshot) (due : Nat) (pid : String) (need : Int)
    (f : Run → Bool) :
    List.Forall (fun r => 0 < r.allocated_cases ∧
        r.allocated_cases ≤ cell_cap data.lines (Main.sched_window data due) (pairOf r))
      (Main.extra_plan_rows data due pid need) ∧
    ((Main.extra_plan_rows data due pid need).map pairOf).Nodup ∧
    Main.extra_plan_rows (data.with_firm f) due pid need =
      Main.extra_plan_rows data due pid need ∧
    Main.new_capacity_cases (data.with_firm f) due pid need =
      Main.new_capacity_cases data due pid need := by
  obtain ⟨hsub, hmem⟩ := alloc_rows_spec data.lines (Main.sched_window data due)
    (Main.alloc_cells data due pid) need
  refine ⟨?_, ?_, wf_extra data f due pid need, wf_nc data f due pid need⟩
  · rw [List.forall_iff_forall_mem]
    intro r hr
    exact ⟨(hmem r hr).1, (hmem r hr).2.1⟩
  · exact (alloc_cells_nodup data due pid).sublist hsub

/-- C6: with inventory keyed uniquely by material id, the material validator is
a no-op when the new capacity is not positive, emits the single blocking
no-BOM note when the product has no BOM lines, and otherwise emits a shortage
note exactly for the BOM lines whose requirement qty_per_case × new_capacity
exceeds the on-hand quantity, reading a missing or null inventory row as zero
on hand — in both implementations (whose no-BOM wording differs). -/
theorem claim6_material_validator (data : Snapshot) (pid : String) (nc : Int)
    (hinv : (data.inventory.map (fun i => i.material_id)).Nodup) :
    Main.mat_blockers data pid nc =
      (if 0 < nc then
        (if data.bom.filter (fun b => b.product_id == pid) = [] then
          ["No BOM defined for this SKU"]
        else
          (data.bom.filter (fun b => b.product_id == pid)).filterMap (fun b =>
            if on_hand_of data.inventory b.material_id < b.qty_per_case * nc then
              some (Main.shortage_note b
                (b.qty_per_case * nc - on_hand_of data.inventory b.material_id))
            else none))
      else []) ∧
    App.mat_blockers data pid nc =
      (if 0 < nc then
        (if data.bom.filter (fun b => b.product_id == pid) = [] then
          ["No BOM for this SKU."]
        else
          (data.bom.filter (fun b => b.product_id == pid)).filterMap (fun b =>
            if on_hand_of data.inventory b.material_id < b.qty_per_case * nc then
              some (App.shortage_note b
                (b.qty_per_case * nc - on_hand_of data.inventory b.material_id))
            else none))
      else []) := by
  have hj : ∀ b : BomRow, Main.join_on_hand data.inventory b =
      [inv_row_of data.inventory b.material_id] :=
    fun b => join_on_hand_single data.inventory hinv b
  constructor
  · unfold Main.mat_blockers
    by_cases hp : 0 < nc
    · rw [if_pos hp, if_pos hp]
      by_cases hb0 : data.bom.filter (fun b => b.product_id == pid) = []
      · rw [if_pos hb0, if_pos hb0]
      · rw [if_neg hb0, if_neg hb0]
        simp only [hj]
        exact flatMap_singleton_filterMap _ _ _
    · rw [if_neg hp, if_neg hp]
  · unfold App.mat_blockers
    by_cases hp : 0 < nc
    · rw [if_pos hp, if_pos hp]
      by_cases hb0 : data.bom.filter (fun b => b.product_id == pid) = []
      · rw [if_pos hb0, if_pos hb0]
      · rw [if_neg hb0, if_neg hb0]
        have hja : ∀ b : BomRow, App.join_on_hand data.inventory b =
            [inv_row_of data.inventory b.material_id] := fun b => hj b
        simp only [hja]
        exact flatMap_singleton_filterMap _ _ _
    · rw [if_neg hp, if_neg hp]

/-- Witness for C6 on a snapshot with a two-line BOM, one sufficient material
and one null-inventory material, at new capacity 4. -/
theorem claim6_witness :
    (snapC6w.inventory.map (fun i => i.material_id)).Nodup ∧
    (Main.mat_blockers snapC6w "P" 4 =
      (if 0 < (4 : Int) then
        (if snapC6w.bom.filter (fun b => b.product_id == "P") = [] then
          ["No BOM defined for this SKU"]
        else
          (snapC6w.bom.filter (fun b => b.product_id == "P")).filterMap (fun b =>
            if on_hand_of snapC6w.inventory b.material_id < b.qty_per_case * 4 then
              some (Main.shortage_note b
                (b.qty_per_case * 4 - on_hand_of snapC6w.inventory b.material_id))
            else none))
      else []) ∧
    App.mat_blockers snapC6w "P" 4 =
      (if 0 < (4 : Int) then
        (if snapC6w.bom.filter (fun b => b.product_id == "P") = [] then
          ["No BOM for this SKU."]
        else
          (snapC6w.bom.filter (fun b => b.product_id == "P")).filterMap (fun b =>
            if on_hand_of snapC6w.inventory b.material_id < b.qty_per_case * 4 then
              some (App.shortage_note b
                (b.qty_per_case * 4 - on_hand_of snapC6w.inventory b.material_id))
            else none))
      else [])) :=
  ⟨by decide, claim6_material_validator snapC6w "P" 4 (by decide)⟩

/-- C7 (amended): when less than the request is already planned and no
capability row exists for the product, both implementations skip allocation
and classify the outcome "no", with allocated = already planned, remaining =
requested − already planned, and a single distinct no-capable-line capacity
blocker; `main.py` returns no material notes, but `app.py` additionally
returns the material blocker "No line can run this product". -/
theorem claim7_no_capable_line (due : Nat) (pid : String) (q : Int) (data : Snapshot)
    (h1 : ¬ Main.already_planned_cases data due pid ≥ q)
    (h2 : Main.capable_lines data pid = []) :
    Main.simulate_request_core due pid q data =
      { status := "no",
        covered_qty_on_requested_date := Main.already_planned_cases data due pid,
        remaining_qty := q - Main.already_planned_cases data due pid,
        existing_orders_used := Main.covering_rows data due pid,
        capacity_notes := ["No capable line for this SKU"], material_notes := [] } ∧
    App.simulate_request due pid q data =
      { can_fulfill := false,
        allocated_total := Main.already_planned_cases data due pid,
        remaining := q - Main.already_planned_cases data due pid,
        plan_rows := Main.covering_rows data due pid,
        material_blockers := ["No line can run this product"],
        capacity_blockers := ["No capable line found"] } :=
  ⟨main_branch2 due pid q data h1 h2, app_branch2 due pid q data h1 h2⟩

/-- C7 counterexample: in the no-capable-line case `app.py` returns a non-empty
material-blocker list, refuting the claim that this branch has no material
blockers. -/
theorem claim7_counterexample :
    ¬ Main.already_planned_cases snapC7cex 4 "P" ≥ 3 ∧
    Main.capable_lines snapC7cex "P" = [] ∧
    (App.simulate_request 4 "P" 3 snapC7cex).material_blockers ≠ [] := by
  decide

/-- Witness for C7 (amended) with 2 cases planned against a request of 5. -/
theorem claim7_witness :
    (¬ Main.already_planned_cases snapC7w 3 "P" ≥ 5 ∧
      Main.capable_lines snapC7w "P" = []) ∧
    (Main.simulate_request_core 3 "P" 5 snapC7w =
      { status := "no",
        covered_qty_on_requested_date := Main.already_planned_cases snapC7w 3 "P",
        remaining_qty := 5 - Main.already_planned_cases snapC7w 3 "P",
        existing_orders_used := Main.covering_rows snapC7w 3 "P",
        capacity_notes := ["No capable line for this SKU"], material_notes := [] } ∧
    App.simulate_request 3 "P" 5 snapC7w =
      { can_fulfill := false,
        allocated_total := Main.already_planned_cases snapC7w 3 "P",
        remaining := 5 - Main.already_planned_cases snapC7w 3 "P",
        plan_rows := Main.covering_rows snapC7w 3 "P",
        material_blockers := ["No line can run this product"],
        capacity_blockers := ["No capable line found"] }) :=
  ⟨⟨by decide, by decide⟩, claim7_no_capable_line 3 "P" 5 snapC7w (by decide) (by decide)⟩
